import Mathlib

/-!
Verification of the geospatial impact-and-ranking engine of the risk-agent
repository (Version 2/risk-agent/src): the haversine distance, the impact
radius model, the affected-node/connection scan and the alternative
supplier/route ranking, shallowly embedded from
`src/utils/geo.py` and `src/agent/data_gathering.py`.

Python floats are modelled as real numbers; Python `int` as `ℤ`/`ℚ` where
arithmetic with the (decimal-literal) multipliers occurs.  Python's
`round(x, 2)` is modelled with Mathlib's `round` (to nearest, scaled by
100); it differs from Python's round-half-to-even only at exact half-cent
ties, which never matter below.  Database rows are modelled as records,
optional columns as `Option`.
-/

open Real List

namespace RiskAgent

/-- Geographic point, from geo.py's GeoPoint TypedDict: lat/lng in degrees. -/
structure GeoPoint where
  lat : ℝ
  lng : ℝ

/-- Degree-to-radian conversion, math.radians. -/
noncomputable def radians (d : ℝ) : ℝ := d * Real.pi / 180

/-- Two-argument arctangent, math.atan2 (y, x), with atan2 0 0 = 0 as in CPython. -/
noncomputable def atan2 (y x : ℝ) : ℝ :=
  if 0 < x then Real.arctan (y / x)
  else if x < 0 then
    (if 0 ≤ y then Real.arctan (y / x) + Real.pi else Real.arctan (y / x) - Real.pi)
  else
    (if 0 < y then Real.pi / 2 else if y < 0 then -(Real.pi / 2) else 0)

/-- Intermediate `a` term of geo.py's haversine_distance:
sin(dlat/2)^2 + cos(lat1) * cos(lat2) * sin(dlon/2)^2 (all in radians). -/
noncomputable def hav_a (point1 point2 : GeoPoint) : ℝ :=
  Real.sin ((radians point2.lat - radians point1.lat) / 2) ^ 2 +
    Real.cos (radians point1.lat) * Real.cos (radians point2.lat) *
      Real.sin ((radians point2.lng - radians point1.lng) / 2) ^ 2

/-- geo.py haversine_distance: R * c with R = 6371 km and
c = 2 * atan2(sqrt(a), sqrt(1 - a)). -/
noncomputable def haversine_distance (point1 point2 : GeoPoint) : ℝ :=
  6371 * (2 * atan2 (Real.sqrt (hav_a point1 point2)) (Real.sqrt (1 - hav_a point1 point2)))

/-- Python round(x, 2): round to the nearest multiple of 1/100 (tie behaviour
modelled with Mathlib's round; see the file comment). -/
noncomputable def round2 (x : ℝ) : ℝ := (round (100 * x) : ℤ) / 100

/-- Python int() applied to a nonnegative-or-negative rational: truncation toward zero. -/
def int_trunc (q : ℚ) : ℤ := if q < 0 then ⌈q⌉ else ⌊q⌋

/-- Event-type multiplier table of geo.py calculate_impact_radius,
multipliers.get(event_type, 1.0); decimal literals modelled exactly as rationals. -/
def multiplierOf (event_type : String) : ℚ :=
  if event_type = "weather" then 3 / 2
  else if event_type = "war" then 2
  else if event_type = "geopolitical" then 13 / 10
  else if event_type = "natural_disaster" then 1
  else if event_type = "tariff" then 1 / 2
  else if event_type = "infrastructure" then 4 / 5
  else 1

/-- geo.py calculate_impact_radius: severity-tier base radius (severity <= 3:
50_000, <= 6: 150_000, else 300_000) times the event-type multiplier,
truncated to an int.  For these tables the product is always an exact
integer, so modelling the float product as a rational is faithful. -/
def calculate_impact_radius (event_type : String) (severity : ℤ) : ℤ :=
  let base : ℚ := if severity ≤ 3 then 50000 else if severity ≤ 6 then 150000 else 300000
  int_trunc (base * multiplierOf event_type)

/-- Reference definition following the spec's words for the ImpactModel
(section 4.2): base radius by severity tier stated as severity in [1,3],
[4,6], [7,10]; same multiplier table; int truncation. -/
def impact_radius_spec (event_type : String) (severity : ℤ) : ℤ :=
  let base : ℚ :=
    if 1 ≤ severity ∧ severity ≤ 3 then 50000
    else if 4 ≤ severity ∧ severity ≤ 6 then 150000
    else 300000
  int_trunc (base * multiplierOf event_type)

/-- Row of the companies table as read by data_gathering.py: location stored
as JSONB (absent or falsy-empty modelled as none), with optional lat/lng
columns as fallback; products defaults to [] via .get. -/
structure Company where
  id : String
  name : String
  type : String
  location : Option GeoPoint
  lat : Option ℝ
  lng : Option ℝ
  city : Option String
  country : Option String
  products : List String

/-- Row of the connections table. -/
structure Connection where
  id : String
  from_node_id : String
  to_node_id : String
  transport_mode : String
  status : Option String
  materials : List String
  lead_time_days : Option ℤ
deriving DecidableEq

/-- Location resolution shared by data_gathering.py: use the location field
if present and truthy, else build it from the lat/lng columns when both are
present, else unresolvable. -/
def resolveLocation (node : Company) : Option GeoPoint :=
  match node.location with
  | some loc => some loc
  | none =>
    match node.lat, node.lng with
    | some a, some b => some { lat := a, lng := b }
    | _, _ => none

/-- Entry of the affected-nodes result built by query_affected_nodes
(data_gathering.py lines 67-76): the node's fields plus the resolved
location and distance_km rounded to 2 decimals. -/
structure AffectedNodeEntry where
  id : String
  name : String
  type : String
  location : GeoPoint
  distance_km : ℝ
  city : Option String
  country : Option String
  products : List String

/-- Record built for one in-radius node by query_affected_nodes. -/
noncomputable def mkAffectedNodeEntry (event_location : GeoPoint) (node : Company)
    (loc : GeoPoint) : AffectedNodeEntry :=
  { id := node.id, name := node.name, type := node.type, location := loc
    distance_km := round2 (haversine_distance event_location loc)
    city := node.city, country := node.country, products := node.products }

/-- Per-row body of the scan loop of query_affected_nodes: skip rows without
a resolvable location, keep rows with distance_km * 1000 <= impact_radius_meters. -/
noncomputable def affectedNodeStep (event_location : GeoPoint) (impact_radius_meters : ℤ)
    (node : Company) : Option AffectedNodeEntry :=
  match resolveLocation node with
  | none => none
  | some loc =>
    if haversine_distance event_location loc * 1000 ≤ (impact_radius_meters : ℝ) then
      some (mkAffectedNodeEntry event_location node loc)
    else none

/-- data_gathering.py query_affected_nodes: scan all company rows with
affectedNodeStep, then sort ascending by the stored (rounded) distance_km
with Python's stable sort. -/
noncomputable def query_affected_nodes (event_location : GeoPoint)
    (impact_radius_meters : ℤ) (all_nodes : List Company) : List AffectedNodeEntry :=
  (all_nodes.filterMap (affectedNodeStep event_location impact_radius_meters)).insertionSort
    (fun a b => a.distance_km ≤ b.distance_km)

/-- Entry of the affected-connections result: the projection kept by
query_affected_connections (data_gathering.py lines 118-125). -/
structure AffectedConnectionEntry where
  id : String
  from_node_id : String
  to_node_id : String
  transport_mode : String
  materials : List String
  lead_time_days : Option ℤ
deriving DecidableEq

/-- Projection of a connection row onto the fields kept in the
affected-connections result. -/
def projConnection (conn : Connection) : AffectedConnectionEntry :=
  { id := conn.id, from_node_id := conn.from_node_id, to_node_id := conn.to_node_id
    transport_mode := conn.transport_mode, materials := conn.materials
    lead_time_days := conn.lead_time_days }

/-- data_gathering.py query_affected_connections: empty input short-circuits
to []; otherwise keep (in snapshot order) every connection whose from or to
endpoint id is in the affected set, projected onto the kept fields. -/
def query_affected_connections (affected_node_ids : List String)
    (all_connections : List Connection) : List AffectedConnectionEntry :=
  if affected_node_ids = [] then []
  else
    (all_connections.filter (fun conn =>
      decide (conn.from_node_id ∈ affected_node_ids ∨ conn.to_node_id ∈ affected_node_ids))).map
      projConnection

/-- Candidate record built by find_alternative_supplier_candidates
(data_gathering.py lines 211-220); matching_products is a Python set,
modelled as a Finset. -/
structure SupplierCandidate where
  id : String
  name : String
  type : String
  location : GeoPoint
  distance_km : ℝ
  products : List String
  similarity_score : ℝ
  matching_products : Finset String

/-- Python set union of the products of the affected nodes. -/
def affectedProductsOf (affected_nodes : List AffectedNodeEntry) : Finset String :=
  affected_nodes.foldl (fun s n => s ∪ n.products.toFinset) ∅

/-- Python set of the types of the affected nodes. -/
def affectedTypesOf (affected_nodes : List AffectedNodeEntry) : Finset String :=
  affected_nodes.foldl (fun s n => insert n.type s) ∅

/-- Similarity score of find_alternative_supplier_candidates
(data_gathering.py lines 195-209): product overlap x10 (only when both
product sets are nonempty), same-type bonus +5, proximity bonus
0.1 * max(0, 100 - distance). -/
noncomputable def supplierSimilarityScore (affected_products affected_types : Finset String)
    (node : Company) (distance_km : ℝ) : ℝ :=
  (if affected_products ≠ ∅ ∧ node.products.toFinset ≠ ∅ then
    ((affected_products ∩ node.products.toFinset).card : ℝ) * 10
  else 0)
    + (if node.type ∈ affected_types then 5 else 0)
    + max 0 (100 - distance_km) * 0.1

/-- Candidate record built for one safe node by
find_alternative_supplier_candidates. -/
noncomputable def mkSupplierCandidate (affected_products affected_types : Finset String)
    (event_location : GeoPoint) (node : Company) (loc : GeoPoint) : SupplierCandidate :=
  { id := node.id, name := node.name, type := node.type, location := loc
    distance_km := round2 (haversine_distance event_location loc), products := node.products
    similarity_score := round2 (supplierSimilarityScore affected_products affected_types node
      (haversine_distance event_location loc))
    matching_products := affected_products ∩ node.products.toFinset }

/-- Per-row body of the scan loop of find_alternative_supplier_candidates:
skip affected ids and unresolvable locations, require distance >=
safe_distance_km. -/
noncomputable def supplierStep (affected_ids : List String)
    (affected_products affected_types : Finset String) (event_location : GeoPoint)
    (safe_distance_km : ℝ) (node : Company) : Option SupplierCandidate :=
  if node.id ∈ affected_ids then none
  else
    match resolveLocation node with
    | none => none
    | some loc =>
      if haversine_distance event_location loc < safe_distance_km then none
      else some (mkSupplierCandidate affected_products affected_types event_location node loc)

/-- data_gathering.py find_alternative_supplier_candidates: empty affected
set short-circuits to []; otherwise scan all company rows with supplierStep
(safe distance = radius/1000 + 50 km), sort by the stored (rounded) score
descending (stable) and take max_candidates. -/
noncomputable def find_alternative_supplier_candidates
    (affected_nodes : List AffectedNodeEntry) (event_location : GeoPoint)
    (impact_radius_meters : ℤ) (max_candidates : ℕ)
    (all_nodes : List Company) : List SupplierCandidate :=
  if affected_nodes.isEmpty then []
  else
    ((all_nodes.filterMap (supplierStep (affected_nodes.map (fun n => n.id))
        (affectedProductsOf affected_nodes) (affectedTypesOf affected_nodes) event_location
        ((impact_radius_meters : ℝ) / 1000 + 50))).insertionSort
      (fun a b => b.similarity_score ≤ a.similarity_score)).take max_candidates

/-- Candidate record built by find_alternative_route_candidates
(data_gathering.py lines 300-310). -/
structure RouteCandidate where
  id : String
  from_node_id : String
  to_node_id : String
  transport_mode : String
  materials : List String
  lead_time_days : Option ℤ
  min_distance_from_event_km : ℝ
  similarity_score : ℝ
  matching_materials : Finset String

/-- Python dict location_map of find_alternative_route_candidates: built by
one pass over the company rows, later rows with a resolvable location
overwrite earlier entries for the same id. -/
def locationMapLookup (all_companies : List Company) (node_id : String) : Option GeoPoint :=
  all_companies.foldl (fun acc company =>
    match resolveLocation company with
    | some loc => if company.id = node_id then some loc else acc
    | none => acc) none

/-- Python set union of the materials of the affected connections. -/
def affectedMaterialsOf (affected_connections : List AffectedConnectionEntry) : Finset String :=
  affected_connections.foldl (fun s c => s ∪ c.materials.toFinset) ∅

/-- Python set of the transport modes of the affected connections. -/
def affectedModesOf (affected_connections : List AffectedConnectionEntry) : Finset String :=
  affected_connections.foldl (fun s c => insert c.transport_mode s) ∅

/-- Similarity score of find_alternative_route_candidates (data_gathering.py
lines 287-298): material overlap x10 (only when both material sets are
nonempty) and transport-mode bonus +5; no proximity term. -/
def routeSimilarityScore (affected_materials affected_modes : Finset String)
    (conn : Connection) : ℚ :=
  (if affected_materials ≠ ∅ ∧ conn.materials.toFinset ≠ ∅ then
    ((affected_materials ∩ conn.materials.toFinset).card : ℚ) * 10
  else 0)
    + (if conn.transport_mode ∈ affected_modes then 5 else 0)

/-- Candidate record built for one safe connection by
find_alternative_route_candidates. -/
noncomputable def mkRouteCandidate (affected_materials affected_modes : Finset String)
    (event_location : GeoPoint) (conn : Connection)
    (from_loc to_loc : GeoPoint) : RouteCandidate :=
  { id := conn.id, from_node_id := conn.from_node_id, to_node_id := conn.to_node_id
    transport_mode := conn.transport_mode, materials := conn.materials
    lead_time_days := conn.lead_time_days
    min_distance_from_event_km := round2 (min (haversine_distance event_location from_loc)
      (haversine_distance event_location to_loc))
    similarity_score := round2 ((routeSimilarityScore affected_materials affected_modes conn : ℝ))
    matching_materials := affected_materials ∩ conn.materials.toFinset }

/-- Per-row body of the scan loop of find_alternative_route_candidates: skip
affected ids, skip connections with any endpoint missing from the location
map, require both endpoint distances >= safe_distance_km. -/
noncomputable def routeStep (affected_ids : List String)
    (affected_materials affected_modes : Finset String) (event_location : GeoPoint)
    (safe_distance_km : ℝ) (all_companies : List Company)
    (conn : Connection) : Option RouteCandidate :=
  if conn.id ∈ affected_ids then none
  else
    match locationMapLookup all_companies conn.from_node_id,
          locationMapLookup all_companies conn.to_node_id with
    | some from_loc, some to_loc =>
      if haversine_distance event_location from_loc < safe_distance_km ∨
          haversine_distance event_location to_loc < safe_distance_km then none
      else some (mkRouteCandidate affected_materials affected_modes event_location conn
        from_loc to_loc)
    | _, _ => none

/-- data_gathering.py find_alternative_route_candidates: empty affected set
short-circuits to []; otherwise scan all connection rows with routeStep
(safe distance = radius/1000 + 50 km), carry round(min(from_dist, to_dist), 2),
sort by the stored (rounded) score descending (stable) and take
max_candidates. -/
noncomputable def find_alternative_route_candidates
    (affected_connections : List AffectedConnectionEntry) (event_location : GeoPoint)
    (impact_radius_meters : ℤ) (max_candidates : ℕ)
    (all_connections : List Connection) (all_companies : List Company) : List RouteCandidate :=
  if affected_connections.isEmpty then []
  else
    ((all_connections.filterMap (routeStep (affected_connections.map (fun c => c.id))
        (affectedMaterialsOf affected_connections) (affectedModesOf affected_connections)
        event_location ((impact_radius_meters : ℝ) / 1000 + 50)
        all_companies)).insertionSort
      (fun a b => b.similarity_score ≤ a.similarity_score)).take max_candidates

/-- Reference definition following the spec's words for the sort key the
AffectedSetFinder claims for connections: the minimum of the two endpoint
nodes' distances from the epicenter (an endpoint without a resolvable
location contributes nothing to the minimum). -/
noncomputable def min_endpoint_distance (event_location : GeoPoint)
    (all_companies : List Company) (conn : AffectedConnectionEntry) : ℝ :=
  match locationMapLookup all_companies conn.from_node_id,
        locationMapLookup all_companies conn.to_node_id with
  | some from_loc, some to_loc =>
    min (haversine_distance event_location from_loc) (haversine_distance event_location to_loc)
  | some from_loc, none => haversine_distance event_location from_loc
  | none, some to_loc => haversine_distance event_location to_loc
  | none, none => 0

/-! ### Helper lemmas about the geo primitives -/

lemma hav_a_self (p : GeoPoint) : hav_a p p = 0 := by
  simp [hav_a]

lemma haversine_of_hav_a_eq_zero {p q : GeoPoint} (h : hav_a p q = 0) :
    haversine_distance p q = 0 := by
  rw [haversine_distance, h]
  rw [Real.sqrt_zero, sub_zero, Real.sqrt_one]
  rw [atan2, if_pos one_pos]
  simp

lemma haversine_self (p : GeoPoint) : haversine_distance p p = 0 :=
  haversine_of_hav_a_eq_zero (hav_a_self p)

lemma sin_half_sub_sq_comm (u v : ℝ) :
    Real.sin ((u - v) / 2) ^ 2 = Real.sin ((v - u) / 2) ^ 2 := by
  rw [show (u - v) / 2 = -((v - u) / 2) by ring, Real.sin_neg]
  ring

lemma hav_a_comm (p q : GeoPoint) : hav_a p q = hav_a q p := by
  rw [hav_a, hav_a, sin_half_sub_sq_comm (radians q.lat) (radians p.lat),
    sin_half_sub_sq_comm (radians q.lng) (radians p.lng)]
  ring

lemma haversine_comm (p q : GeoPoint) : haversine_distance p q = haversine_distance q p := by
  rw [haversine_distance, haversine_distance, hav_a_comm]

lemma atan2_nonneg {y x : ℝ} (hy : 0 ≤ y) (hx : 0 ≤ x) : 0 ≤ atan2 y x := by
  rcases lt_or_eq_of_le hx with hx0 | hx0
  · rw [atan2, if_pos hx0]
    have h : (0 : ℝ) ≤ y / x := div_nonneg hy (le_of_lt hx0)
    calc (0 : ℝ) = Real.arctan 0 := by rw [Real.arctan_zero]
    _ ≤ Real.arctan (y / x) := Real.arctan_strictMono.monotone h
  · rw [atan2, if_neg (by rw [← hx0]; exact lt_irrefl 0),
      if_neg (by rw [← hx0]; exact lt_irrefl 0)]
    rcases lt_or_eq_of_le hy with hy0 | hy0
    · rw [if_pos hy0]
      positivity
    · rw [if_neg (by rw [← hy0]; exact lt_irrefl 0), if_neg (by rw [← hy0]; exact lt_irrefl 0)]

lemma haversine_nonneg (p q : GeoPoint) : 0 ≤ haversine_distance p q := by
  have h := atan2_nonneg (Real.sqrt_nonneg (hav_a p q)) (Real.sqrt_nonneg (1 - hav_a p q))
  rw [haversine_distance]
  nlinarith

/-- Distance along the equator: for 0 ≤ L < 180 degrees of longitude, the
haversine distance from (0,0) to (0,L) is exactly 6371 * (L * pi / 180). -/
lemma haversine_equator {L : ℝ} (h0 : 0 ≤ L) (h1 : L < 180) :
    haversine_distance ⟨0, 0⟩ ⟨0, L⟩ = 6371 * (L * Real.pi / 180) := by
  have hpi := Real.pi_pos
  have ha : hav_a ⟨0, 0⟩ ⟨0, L⟩ = Real.sin (L * Real.pi / 360) ^ 2 := by
    simp only [hav_a, radians]
    rw [show ((0 : ℝ) * Real.pi / 180 - 0 * Real.pi / 180) / 2 = 0 by ring,
      show (L * Real.pi / 180 - 0 * Real.pi / 180) / 2 = L * Real.pi / 360 by ring,
      show (0 : ℝ) * Real.pi / 180 = 0 by ring]
    simp [Real.sin_zero, Real.cos_zero]
  have hθ0 : 0 ≤ L * Real.pi / 360 := by positivity
  have hθ1 : L * Real.pi / 360 < Real.pi / 2 := by
    rw [div_lt_div_iff₀ (by norm_num) (by norm_num)]
    nlinarith
  have hsin : 0 ≤ Real.sin (L * Real.pi / 360) :=
    Real.sin_nonneg_of_nonneg_of_le_pi hθ0 (by nlinarith)
  have hcos : 0 < Real.cos (L * Real.pi / 360) :=
    Real.cos_pos_of_mem_Ioo ⟨by nlinarith, hθ1⟩
  rw [haversine_distance, ha]
  rw [Real.sqrt_sq hsin]
  rw [show 1 - Real.sin (L * Real.pi / 360) ^ 2 = Real.cos (L * Real.pi / 360) ^ 2 by
    have := Real.sin_sq_add_cos_sq (L * Real.pi / 360); linarith]
  rw [Real.sqrt_sq (le_of_lt hcos)]
  rw [atan2, if_pos hcos]
  rw [← Real.tan_eq_sin_div_cos, Real.arctan_tan (by nlinarith) hθ1]
  ring

/-- Two distinct representations of the north pole are at haversine distance
zero: the cos(lat) factors vanish. -/
lemma haversine_pole : haversine_distance ⟨90, 0⟩ ⟨90, 100⟩ = 0 := by
  apply haversine_of_hav_a_eq_zero
  rw [hav_a]
  simp only [radians]
  rw [show (90 : ℝ) * Real.pi / 180 = Real.pi / 2 by ring]
  simp [Real.cos_pi_div_two]

lemma round2_rat (q : ℚ) : round2 ((q : ℝ)) = ((round (100 * q) : ℤ) : ℝ) / 100 := by
  rw [round2]
  norm_cast

lemma round2_ne_of_irrational {x : ℝ} (h : Irrational x) : round2 x ≠ x := by
  intro he
  apply h
  exact ⟨((round (100 * x) : ℤ) : ℚ) / 100, by push_cast; rw [← round2]; exact he⟩

lemma round2_pos_of_one_le {x : ℝ} (h : 1 ≤ x) : 0 < round2 x := by
  rw [round2]
  have h100 : (100 : ℝ) ≤ 100 * x := by nlinarith
  have : (100 : ℤ) ≤ round (100 * x) := by
    calc (100 : ℤ) = round ((100 : ℝ)) := by norm_num
    _ ≤ round (100 * x) := by
        rw [round_eq, round_eq]
        exact Int.floor_le_floor (by linarith)
  have : (100 : ℝ) ≤ ((round (100 * x) : ℤ) : ℝ) := by exact_mod_cast this
  linarith [this]

/-! ### Characterization lemmas for the scan and ranking functions -/

instance : IsTotal AffectedNodeEntry (fun a b => a.distance_km ≤ b.distance_km) :=
  ⟨fun a b => le_total a.distance_km b.distance_km⟩

instance : IsTrans AffectedNodeEntry (fun a b => a.distance_km ≤ b.distance_km) :=
  ⟨fun _ _ _ hab hbc => le_trans hab hbc⟩

instance : IsTotal SupplierCandidate (fun a b => b.similarity_score ≤ a.similarity_score) :=
  ⟨fun a b => le_total b.similarity_score a.similarity_score⟩

instance : IsTrans SupplierCandidate (fun a b => b.similarity_score ≤ a.similarity_score) :=
  ⟨fun _ _ _ hab hbc => le_trans hbc hab⟩

instance : IsTotal RouteCandidate (fun a b => b.similarity_score ≤ a.similarity_score) :=
  ⟨fun a b => le_total b.similarity_score a.similarity_score⟩

instance : IsTrans RouteCandidate (fun a b => b.similarity_score ≤ a.similarity_score) :=
  ⟨fun _ _ _ hab hbc => le_trans hbc hab⟩

lemma affectedNodeStep_eq_some {e : GeoPoint} {r : ℤ} {node : Company}
    {c : AffectedNodeEntry} :
    affectedNodeStep e r node = some c ↔
      ∃ loc, resolveLocation node = some loc ∧
        haversine_distance e loc * 1000 ≤ (r : ℝ) ∧ c = mkAffectedNodeEntry e node loc := by
  cases hres : resolveLocation node with
  | none => simp [affectedNodeStep, hres]
  | some loc =>
    by_cases hd : haversine_distance e loc * 1000 ≤ (r : ℝ)
    · simp [affectedNodeStep, hres, hd, eq_comm]
    · simp [affectedNodeStep, hres, hd]

lemma mem_query_affected_nodes {e : GeoPoint} {r : ℤ} {nodes : List Company}
    {c : AffectedNodeEntry} :
    c ∈ query_affected_nodes e r nodes ↔
      ∃ node ∈ nodes, ∃ loc, resolveLocation node = some loc ∧
        haversine_distance e loc * 1000 ≤ (r : ℝ) ∧ c = mkAffectedNodeEntry e node loc := by
  rw [query_affected_nodes, List.mem_insertionSort, List.mem_filterMap]
  simp only [affectedNodeStep_eq_some]

lemma sorted_query_affected_nodes (e : GeoPoint) (r : ℤ) (nodes : List Company) :
    List.Sorted (fun a b => a.distance_km ≤ b.distance_km) (query_affected_nodes e r nodes) := by
  rw [query_affected_nodes]
  exact List.sorted_insertionSort _ _

lemma mem_query_affected_connections {ids : List String} {conns : List Connection}
    {p : AffectedConnectionEntry} :
    p ∈ query_affected_connections ids conns ↔
      ∃ conn ∈ conns, (conn.from_node_id ∈ ids ∨ conn.to_node_id ∈ ids) ∧
        p = projConnection conn := by
  rw [query_affected_connections]
  split_ifs with hids
  · subst hids
    simp
  · constructor
    · intro hp
      obtain ⟨conn, hconn, hproj⟩ := List.mem_map.mp hp
      obtain ⟨hmem, hcond⟩ := List.mem_filter.mp hconn
      exact ⟨conn, hmem, of_decide_eq_true hcond, hproj.symm⟩
    · rintro ⟨conn, hmem, hcond, rfl⟩
      exact List.mem_map.mpr ⟨conn, List.mem_filter.mpr ⟨hmem, decide_eq_true hcond⟩, rfl⟩

lemma supplierStep_eq_some {ids : List String} {prods types : Finset String} {e : GeoPoint}
    {safe : ℝ} {node : Company} {c : SupplierCandidate} :
    supplierStep ids prods types e safe node = some c ↔
      node.id ∉ ids ∧ ∃ loc, resolveLocation node = some loc ∧
        ¬ haversine_distance e loc < safe ∧ c = mkSupplierCandidate prods types e node loc := by
  by_cases hid : node.id ∈ ids
  · simp [supplierStep, hid]
  · cases hres : resolveLocation node with
    | none => simp [supplierStep, hid, hres]
    | some loc =>
      by_cases hd : haversine_distance e loc < safe
      · simp [supplierStep, hid, hres, hd]
      · simp [supplierStep, hid, hres, hd, eq_comm]
        exact fun _ => not_lt.mp hd

lemma routeStep_eq_some {ids : List String} {mats modes : Finset String} {e : GeoPoint}
    {safe : ℝ} {comps : List Company} {conn : Connection} {c : RouteCandidate} :
    routeStep ids mats modes e safe comps conn = some c ↔
      conn.id ∉ ids ∧ ∃ fl tl, locationMapLookup comps conn.from_node_id = some fl ∧
        locationMapLookup comps conn.to_node_id = some tl ∧
        ¬ (haversine_distance e fl < safe ∨ haversine_distance e tl < safe) ∧
        c = mkRouteCandidate mats modes e conn fl tl := by
  by_cases hid : conn.id ∈ ids
  · simp [routeStep, hid]
  · cases hf : locationMapLookup comps conn.from_node_id with
    | none => simp [routeStep, hid, hf]
    | some fl =>
      cases ht : locationMapLookup comps conn.to_node_id with
      | none => simp [routeStep, hid, hf, ht]
      | some tl =>
        by_cases hd : haversine_distance e fl < safe ∨ haversine_distance e tl < safe
        · simp [routeStep, hid, hf, ht, hd]
          intro h1 h2 _
          rcases hd with h | h
          · exact absurd h (not_lt.mpr h1)
          · exact absurd h (not_lt.mpr h2)
        · simp [routeStep, hid, hf, ht, hd, eq_comm]
          exact fun _ => ⟨not_lt.mp (fun hh => hd (Or.inl hh)), not_lt.mp (fun hh => hd (Or.inr hh))⟩

lemma mem_supplier_candidates {affected : List AffectedNodeEntry} {e : GeoPoint} {r : ℤ}
    {maxc : ℕ} {nodes : List Company} {c : SupplierCandidate}
    (h : c ∈ find_alternative_supplier_candidates affected e r maxc nodes) :
    ∃ node ∈ nodes, ∃ loc, resolveLocation node = some loc ∧
      node.id ∉ affected.map (fun n => n.id) ∧
      ¬ haversine_distance e loc < (r : ℝ) / 1000 + 50 ∧
      c = mkSupplierCandidate (affectedProductsOf affected) (affectedTypesOf affected)
        e node loc := by
  rw [find_alternative_supplier_candidates] at h
  split_ifs at h with he
  · simp at h
  · have h1 := (List.mem_insertionSort _).mp (List.take_subset _ _ h)
    obtain ⟨node, hmem, hstep⟩ := List.mem_filterMap.mp h1
    obtain ⟨hid, loc, hres, hd, hc⟩ := supplierStep_eq_some.mp hstep
    exact ⟨node, hmem, loc, hres, hid, hd, hc⟩

lemma mem_route_candidates {affected : List AffectedConnectionEntry} {e : GeoPoint} {r : ℤ}
    {maxc : ℕ} {conns : List Connection} {comps : List Company} {c : RouteCandidate}
    (h : c ∈ find_alternative_route_candidates affected e r maxc conns comps) :
    ∃ conn ∈ conns, ∃ fl tl, locationMapLookup comps conn.from_node_id = some fl ∧
      locationMapLookup comps conn.to_node_id = some tl ∧
      conn.id ∉ affected.map (fun k => k.id) ∧
      ¬ (haversine_distance e fl < (r : ℝ) / 1000 + 50 ∨
        haversine_distance e tl < (r : ℝ) / 1000 + 50) ∧
      c = mkRouteCandidate (affectedMaterialsOf affected) (affectedModesOf affected)
        e conn fl tl := by
  rw [find_alternative_route_candidates] at h
  split_ifs at h with he
  · simp at h
  · have h1 := (List.mem_insertionSort _).mp (List.take_subset _ _ h)
    obtain ⟨conn, hmem, hstep⟩ := List.mem_filterMap.mp h1
    obtain ⟨hid, fl, tl, hf, ht, hd, hc⟩ := routeStep_eq_some.mp hstep
    exact ⟨conn, hmem, fl, tl, hf, ht, hid, hd, hc⟩

lemma sorted_supplier_candidates (affected : List AffectedNodeEntry) (e : GeoPoint) (r : ℤ)
    (maxc : ℕ) (nodes : List Company) :
    List.Sorted (fun a b => b.similarity_score ≤ a.similarity_score)
      (find_alternative_supplier_candidates affected e r maxc nodes) := by
  rw [find_alternative_supplier_candidates]
  split_ifs with he
  · exact List.sorted_nil
  · exact List.Pairwise.sublist (List.take_sublist _ _) (List.sorted_insertionSort _ _)

lemma length_supplier_candidates_le (affected : List AffectedNodeEntry) (e : GeoPoint)
    (r : ℤ) (maxc : ℕ) (nodes : List Company) :
    (find_alternative_supplier_candidates affected e r maxc nodes).length ≤ maxc := by
  rw [find_alternative_supplier_candidates]
  split_ifs with he
  · simp
  · exact List.length_take_le _ _

/-! ### Concrete scenario used by witnesses and counterexamples -/

/-- Epicenter for the concrete scenarios: the equator/prime-meridian origin. -/
noncomputable def geoO : GeoPoint := { lat := 0, lng := 0 }

/-- Half a degree of longitude away from the origin (about 55.6 km). -/
noncomputable def geoN : GeoPoint := { lat := 0, lng := 1 / 2 }

/-- Ninety degrees of longitude away from the origin (about 10008 km). -/
noncomputable def geoQ : GeoPoint := { lat := 0, lng := 90 }

/-- Company at the origin. -/
noncomputable def compO : Company :=
  { id := "origin", name := "Origin Supplier", type := "supplier", location := some geoO
    lat := none, lng := none, city := none, country := none, products := [] }

/-- Company half a degree away. -/
noncomputable def compN : Company :=
  { id := "near", name := "Near Supplier", type := "supplier", location := some geoN
    lat := none, lng := none, city := none, country := none, products := [] }

/-- Company a quarter of the globe away. -/
noncomputable def compQ : Company :=
  { id := "far", name := "Far Supplier", type := "supplier", location := some geoQ
    lat := none, lng := none, city := none, country := none, products := [] }

/-- Affected-node entry for the origin company (distance 0 from the origin). -/
noncomputable def affO : AffectedNodeEntry := mkAffectedNodeEntry geoO compO geoO

/-- Self-loop connection at the origin company. -/
def connO : Connection :=
  { id := "c-origin", from_node_id := "origin", to_node_id := "origin"
    transport_mode := "sea", status := none, materials := [], lead_time_days := none }

/-- Self-loop connection at the near company. -/
def connN : Connection :=
  { id := "c-near", from_node_id := "near", to_node_id := "near"
    transport_mode := "sea", status := none, materials := [], lead_time_days := none }

/-- Self-loop connection at the far company. -/
def connQ : Connection :=
  { id := "c-far", from_node_id := "far", to_node_id := "far"
    transport_mode := "sea", status := none, materials := [], lead_time_days := none }

/-- An affected connection (endpoints elsewhere) used as input to the route ranker. -/
def affConn : AffectedConnectionEntry :=
  { id := "c-dummy", from_node_id := "x", to_node_id := "y"
    transport_mode := "sea", materials := [], lead_time_days := none }

lemma hav_geoO_geoN : haversine_distance geoO geoN = 6371 * Real.pi / 360 := by
  rw [show geoO = ({ lat := 0, lng := 0 } : GeoPoint) from rfl,
    show geoN = ({ lat := 0, lng := 1 / 2 } : GeoPoint) from rfl,
    @haversine_equator (1 / 2) (by norm_num) (by norm_num)]
  ring

lemma hav_geoO_geoQ : haversine_distance geoO geoQ = 6371 * (Real.pi / 2) := by
  rw [show geoO = ({ lat := 0, lng := 0 } : GeoPoint) from rfl,
    show geoQ = ({ lat := 0, lng := 90 } : GeoPoint) from rfl,
    @haversine_equator 90 (by norm_num) (by norm_num)]
  ring

lemma geoN_dist_ge_50 : (50 : ℝ) ≤ 6371 * Real.pi / 360 := by
  nlinarith [Real.pi_gt_three]

lemma geoN_dist_le_100 : 6371 * Real.pi / 360 ≤ 100 := by
  nlinarith [Real.pi_lt_d2]

lemma geoQ_dist_ge_100 : (100 : ℝ) ≤ 6371 * (Real.pi / 2) := by
  nlinarith [Real.pi_gt_three]

lemma irrational_geoN_dist : Irrational (6371 * Real.pi / 360) := by
  have h : (6371 : ℝ) * Real.pi / 360 = ((6371 / 360 : ℚ) : ℝ) * Real.pi := by
    push_cast
    ring
  rw [h]
  exact irrational_pi.rat_mul (by norm_num)

lemma round2_zero : round2 0 = 0 := by
  rw [round2]
  norm_num

lemma supplier_eval_near :
    find_alternative_supplier_candidates [affO] geoO 0 10 [compN] =
      [mkSupplierCandidate (affectedProductsOf [affO]) (affectedTypesOf [affO])
        geoO compN geoN] := by
  have hid : compN.id ∉ [affO].map (fun n => n.id) := by
    simp only [affO, mkAffectedNodeEntry, compO, compN, List.map_cons, List.map_nil]
    decide
  have hd : ¬ haversine_distance geoO geoN < ((0 : ℤ) : ℝ) / 1000 + 50 := by
    rw [hav_geoO_geoN]
    push_cast
    norm_num
    exact geoN_dist_ge_50
  have hstep : supplierStep ([affO].map (fun n => n.id)) (affectedProductsOf [affO])
      (affectedTypesOf [affO]) geoO (((0 : ℤ) : ℝ) / 1000 + 50) compN =
        some (mkSupplierCandidate (affectedProductsOf [affO]) (affectedTypesOf [affO])
          geoO compN geoN) :=
    supplierStep_eq_some.mpr ⟨hid, geoN, rfl, hd, rfl⟩
  rw [find_alternative_supplier_candidates, if_neg (by simp)]
  rw [List.filterMap_cons_some hstep, List.filterMap_nil]
  simp [List.insertionSort, List.orderedInsert]

lemma supplier_eval_far :
    find_alternative_supplier_candidates [affO] geoO 0 10 [compQ] =
      [mkSupplierCandidate (affectedProductsOf [affO]) (affectedTypesOf [affO])
        geoO compQ geoQ] := by
  have hid : compQ.id ∉ [affO].map (fun n => n.id) := by
    simp only [affO, mkAffectedNodeEntry, compO, compQ, List.map_cons, List.map_nil]
    decide
  have hd : ¬ haversine_distance geoO geoQ < ((0 : ℤ) : ℝ) / 1000 + 50 := by
    rw [hav_geoO_geoQ]
    push_cast
    norm_num
    nlinarith [Real.pi_gt_three]
  have hstep : supplierStep ([affO].map (fun n => n.id)) (affectedProductsOf [affO])
      (affectedTypesOf [affO]) geoO (((0 : ℤ) : ℝ) / 1000 + 50) compQ =
        some (mkSupplierCandidate (affectedProductsOf [affO]) (affectedTypesOf [affO])
          geoO compQ geoQ) :=
    supplierStep_eq_some.mpr ⟨hid, geoQ, rfl, hd, rfl⟩
  rw [find_alternative_supplier_candidates, if_neg (by simp)]
  rw [List.filterMap_cons_some hstep, List.filterMap_nil]
  simp [List.insertionSort, List.orderedInsert]

lemma route_eval_near :
    find_alternative_route_candidates [affConn] geoO 0 10 [connN] [compN] =
      [mkRouteCandidate (affectedMaterialsOf [affConn]) (affectedModesOf [affConn])
        geoO connN geoN geoN] := by
  have hid : connN.id ∉ [affConn].map (fun c => c.id) := by
    simp only [affConn, connN, List.map_cons, List.map_nil]
    decide
  have hloc : locationMapLookup [compN] connN.from_node_id = some geoN := rfl
  have hd : ¬ (haversine_distance geoO geoN < ((0 : ℤ) : ℝ) / 1000 + 50 ∨
      haversine_distance geoO geoN < ((0 : ℤ) : ℝ) / 1000 + 50) := by
    rw [or_self, hav_geoO_geoN]
    push_cast
    norm_num
    exact geoN_dist_ge_50
  have hstep : routeStep ([affConn].map (fun c => c.id)) (affectedMaterialsOf [affConn])
      (affectedModesOf [affConn]) geoO (((0 : ℤ) : ℝ) / 1000 + 50) [compN] connN =
        some (mkRouteCandidate (affectedMaterialsOf [affConn]) (affectedModesOf [affConn])
          geoO connN geoN geoN) :=
    routeStep_eq_some.mpr ⟨hid, geoN, geoN, hloc, hloc, hd, rfl⟩
  rw [find_alternative_route_candidates, if_neg (by simp)]
  rw [List.filterMap_cons_some hstep, List.filterMap_nil]
  simp [List.insertionSort, List.orderedInsert]

lemma qan_eval_pair :
    query_affected_nodes geoO 20000000 [compQ, compO] =
      [mkAffectedNodeEntry geoO compO geoO, mkAffectedNodeEntry geoO compQ geoQ] := by
  have hdQ : haversine_distance geoO geoQ * 1000 ≤ ((20000000 : ℤ) : ℝ) := by
    rw [hav_geoO_geoQ]
    push_cast
    nlinarith [Real.pi_lt_d2]
  have hdO : haversine_distance geoO geoO * 1000 ≤ ((20000000 : ℤ) : ℝ) := by
    rw [haversine_self]
    push_cast
    norm_num
  have hQ : affectedNodeStep geoO 20000000 compQ = some (mkAffectedNodeEntry geoO compQ geoQ) :=
    affectedNodeStep_eq_some.mpr ⟨geoQ, rfl, hdQ, rfl⟩
  have hO : affectedNodeStep geoO 20000000 compO = some (mkAffectedNodeEntry geoO compO geoO) :=
    affectedNodeStep_eq_some.mpr ⟨geoO, rfl, hdO, rfl⟩
  have hne : ¬ ((mkAffectedNodeEntry geoO compQ geoQ).distance_km ≤
      (mkAffectedNodeEntry geoO compO geoO).distance_km) := by
    simp only [mkAffectedNodeEntry]
    rw [haversine_self, round2_zero, hav_geoO_geoQ]
    exact not_le.mpr (round2_pos_of_one_le (by nlinarith [Real.pi_gt_three]))
  rw [query_affected_nodes, List.filterMap_cons_some hQ, List.filterMap_cons_some hO,
    List.filterMap_nil]
  simp only [List.insertionSort, List.orderedInsert]
  rw [if_neg hne]

lemma ids_eval :
    (query_affected_nodes geoO 20000000 [compQ, compO]).map (fun c => c.id) =
      ["origin", "far"] := by
  rw [qan_eval_pair]
  simp [mkAffectedNodeEntry, compO, compQ]

lemma qac_eval :
    query_affected_connections
        ((query_affected_nodes geoO 20000000 [compQ, compO]).map (fun c => c.id))
        [connQ, connO] =
      [projConnection connQ, projConnection connO] := by
  rw [ids_eval]
  decide

lemma med_Q :
    min_endpoint_distance geoO [compQ, compO] (projConnection connQ) =
      6371 * (Real.pi / 2) := by
  show min (haversine_distance geoO geoQ) (haversine_distance geoO geoQ) = 6371 * (Real.pi / 2)
  rw [min_self, hav_geoO_geoQ]

lemma med_O :
    min_endpoint_distance geoO [compQ, compO] (projConnection connO) = 0 := by
  show min (haversine_distance geoO geoO) (haversine_distance geoO geoO) = 0
  rw [min_self, haversine_self]

lemma multiplierOf_war : multiplierOf "war" = 2 := by
  rw [multiplierOf, if_neg (by decide), if_pos rfl]

lemma multiplierOf_tariff : multiplierOf "tariff" = 1 / 2 := by
  rw [multiplierOf, if_neg (by decide), if_neg (by decide), if_neg (by decide),
    if_neg (by decide), if_pos rfl]

lemma multiplierOf_nd : multiplierOf "natural_disaster" = 1 := by
  rw [multiplierOf, if_neg (by decide), if_neg (by decide), if_neg (by decide), if_pos rfl]

/-! ### Claims -/

/-- C1 (amended): every entry returned by the affected-node scan comes from a
snapshot node with a resolvable location whose distance times 1000 is within
the radius, and carries that distance rounded to 2 decimal places as
distance_km; every resolvable node within the radius is returned (so any
resolvable node that is not returned is strictly outside), nodes without a
resolvable location are never returned and cause no error, and the result is
sorted ascending by the stored (rounded) distance_km. -/
theorem C1_affected_nodes_partition (e : GeoPoint) (r : ℤ) (nodes : List Company) :
    (∀ c ∈ query_affected_nodes e r nodes,
      ∃ node ∈ nodes, ∃ loc, resolveLocation node = some loc ∧
        haversine_distance e loc * 1000 ≤ (r : ℝ) ∧
        c = mkAffectedNodeEntry e node loc ∧
        c.distance_km = round2 (haversine_distance e loc)) ∧
    (∀ node ∈ nodes, ∀ loc, resolveLocation node = some loc →
      haversine_distance e loc * 1000 ≤ (r : ℝ) →
      mkAffectedNodeEntry e node loc ∈ query_affected_nodes e r nodes) ∧
    List.Sorted (fun a b => a.distance_km ≤ b.distance_km)
      (query_affected_nodes e r nodes) := by
  refine ⟨?_, ?_, sorted_query_affected_nodes e r nodes⟩
  · intro c hc
    obtain ⟨node, hn, loc, hres, hd, hc'⟩ := mem_query_affected_nodes.mp hc
    subst hc'
    exact ⟨node, hn, loc, hres, hd, rfl, rfl⟩
  · intro node hn loc hres hd
    exact mem_query_affected_nodes.mpr ⟨node, hn, loc, hres, hd, rfl⟩

/-- C1 witness: the origin company, at distance zero from the origin
epicenter, is returned for radius 0. -/
theorem C1_witness :
    mkAffectedNodeEntry geoO compO geoO ∈ query_affected_nodes geoO 0 [compO] :=
  (C1_affected_nodes_partition geoO 0 [compO]).2.1 compO (by simp) geoO rfl
    (by rw [haversine_self]; norm_num)

/-- C1 counterexample: the claim as stated says the returned node carries the
haversine distance itself as distance_km, but the code stores it rounded to
2 decimals: half a degree along the equator gives the irrational distance
6371 * pi / 360, which its rounding cannot equal. -/
theorem C1_counterexample :
    (query_affected_nodes geoO 100000 [compN]).map (fun c => c.distance_km) ≠
      [haversine_distance geoO geoN] := by
  have hd : haversine_distance geoO geoN * 1000 ≤ ((100000 : ℤ) : ℝ) := by
    rw [hav_geoO_geoN]
    push_cast
    nlinarith [Real.pi_lt_d2]
  have hstep : affectedNodeStep geoO 100000 compN =
      some (mkAffectedNodeEntry geoO compN geoN) :=
    affectedNodeStep_eq_some.mpr ⟨geoN, rfl, hd, rfl⟩
  rw [query_affected_nodes, List.filterMap_cons_some hstep, List.filterMap_nil]
  simp only [List.insertionSort, List.orderedInsert, List.map_cons, List.map_nil,
    mkAffectedNodeEntry]
  intro h
  have h1 : round2 (haversine_distance geoO geoN) = haversine_distance geoO geoN := by
    simpa using h
  rw [hav_geoO_geoN] at h1
  exact round2_ne_of_irrational irrational_geoN_dist h1

/-- C2: a connection appears in the affected-connections result if and only
if it is in the snapshot and its from or to endpoint id is in the affected
set; no geometry of the connection is involved. -/
theorem C2_affected_connections_iff (ids : List String) (conns : List Connection)
    (p : AffectedConnectionEntry) :
    p ∈ query_affected_connections ids conns ↔
      ∃ conn ∈ conns, (conn.from_node_id ∈ ids ∨ conn.to_node_id ∈ ids) ∧
        p = projConnection conn :=
  mem_query_affected_connections

/-- C4: on the contract severity range 1..10 the code's impact radius equals
the spec's two-stage reference definition, and the three quoted values hold. -/
theorem C4_impact_radius (event_type : String) (severity : ℤ)
    (h1 : 1 ≤ severity) (h2 : severity ≤ 10) :
    calculate_impact_radius event_type severity = impact_radius_spec event_type severity ∧
    calculate_impact_radius "war" 8 = 600000 ∧
    calculate_impact_radius "tariff" 2 = 25000 ∧
    calculate_impact_radius "natural_disaster" 5 = 150000 := by
  refine ⟨?_, by norm_num [calculate_impact_radius, multiplierOf_war, int_trunc],
    by norm_num [calculate_impact_radius, multiplierOf_tariff, int_trunc],
    by norm_num [calculate_impact_radius, multiplierOf_nd, int_trunc]⟩
  show int_trunc ((if severity ≤ 3 then (50000 : ℚ) else if severity ≤ 6 then 150000
      else 300000) * multiplierOf event_type) =
    int_trunc ((if 1 ≤ severity ∧ severity ≤ 3 then (50000 : ℚ)
      else if 4 ≤ severity ∧ severity ≤ 6 then 150000 else 300000) * multiplierOf event_type)
  have hbase : (if severity ≤ 3 then (50000 : ℚ) else if severity ≤ 6 then 150000
      else 300000) =
    (if 1 ≤ severity ∧ severity ≤ 3 then (50000 : ℚ)
      else if 4 ≤ severity ∧ severity ≤ 6 then 150000 else 300000) := by
    split_ifs <;> first | rfl | omega
  rw [hbase]

/-- C4 witness: instantiation at ("war", 8). -/
theorem C4_witness :
    (1 : ℤ) ≤ 8 ∧ (8 : ℤ) ≤ 10 ∧
      (calculate_impact_radius "war" 8 = impact_radius_spec "war" 8 ∧
        calculate_impact_radius "war" 8 = 600000 ∧
        calculate_impact_radius "tariff" 2 = 25000 ∧
        calculate_impact_radius "natural_disaster" 5 = 150000) :=
  ⟨by norm_num, by norm_num, C4_impact_radius "war" 8 (by norm_num) (by norm_num)⟩

/-- C7 (amended): severities above 10 do fall through to the over-6 tier
(base 300,000 m), but severities at or below 0 fall into the first branch
and use the 50,000 m base; neither case fails. -/
theorem C7_out_of_range (event_type : String) (severity : ℤ) :
    (10 < severity →
      calculate_impact_radius event_type severity =
        int_trunc (300000 * multiplierOf event_type)) ∧
    (severity ≤ 0 →
      calculate_impact_radius event_type severity =
        int_trunc (50000 * multiplierOf event_type)) := by
  constructor
  · intro h
    show int_trunc ((if severity ≤ 3 then (50000 : ℚ) else if severity ≤ 6 then 150000
        else 300000) * multiplierOf event_type) = _
    rw [if_neg (by omega), if_neg (by omega)]
  · intro h
    show int_trunc ((if severity ≤ 3 then (50000 : ℚ) else if severity ≤ 6 then 150000
        else 300000) * multiplierOf event_type) = _
    rw [if_pos (by omega)]

/-- C7 witness: instantiation at severities 11 and 0. -/
theorem C7_witness :
    ((10 : ℤ) < 11 ∧
      calculate_impact_radius "war" 11 = int_trunc (300000 * multiplierOf "war")) ∧
    ((0 : ℤ) ≤ 0 ∧
      calculate_impact_radius "war" 0 = int_trunc (50000 * multiplierOf "war")) :=
  ⟨⟨by norm_num, (C7_out_of_range "war" 11).1 (by norm_num)⟩,
    ⟨le_refl 0, (C7_out_of_range "war" 0).2 (le_refl 0)⟩⟩

/-- C7 counterexample: the claim says every severity outside 1..10 uses the
over-6 tier base of 300,000 m, but severity 0 takes the first branch
(severity <= 3) and yields 50,000 for natural_disaster, not 300,000. -/
theorem C7_counterexample :
    calculate_impact_radius "natural_disaster" 0 = 50000 ∧
      calculate_impact_radius "natural_disaster" 0 ≠
        int_trunc (300000 * multiplierOf "natural_disaster") := by
  constructor <;> norm_num [calculate_impact_radius, multiplierOf_nd, int_trunc]

/-- C8 (amended): within the coordinate invariant ranges the haversine
distance is symmetric, non-negative, and zero on identical points; the
converse (zero implies equality) is false, see the counterexample. -/
theorem C8_distance_properties (p q : GeoPoint)
    (_hp1 : -90 ≤ p.lat) (_hp2 : p.lat ≤ 90) (_hp3 : -180 ≤ p.lng) (_hp4 : p.lng ≤ 180)
    (_hq1 : -90 ≤ q.lat) (_hq2 : q.lat ≤ 90) (_hq3 : -180 ≤ q.lng) (_hq4 : q.lng ≤ 180) :
    haversine_distance p q = haversine_distance q p ∧
    0 ≤ haversine_distance p q ∧ haversine_distance p p = 0 :=
  ⟨haversine_comm p q, haversine_nonneg p q, haversine_self p⟩

/-- C8 witness: instantiation at the origin and (10, 20). -/
theorem C8_witness :
    ((-90 : ℝ) ≤ 0 ∧ (0 : ℝ) ≤ 90 ∧ (-90 : ℝ) ≤ 10 ∧ (10 : ℝ) ≤ 90 ∧
      (-180 : ℝ) ≤ 20 ∧ (20 : ℝ) ≤ 180) ∧
    (haversine_distance { lat := 0, lng := 0 } { lat := 10, lng := 20 } =
        haversine_distance { lat := 10, lng := 20 } { lat := 0, lng := 0 } ∧
      0 ≤ haversine_distance { lat := 0, lng := 0 } { lat := 10, lng := 20 } ∧
      haversine_distance { lat := 0, lng := 0 } { lat := 0, lng := 0 } = 0) :=
  ⟨by norm_num,
    C8_distance_properties { lat := 0, lng := 0 } { lat := 10, lng := 20 }
      (by norm_num) (by norm_num) (by norm_num) (by norm_num)
      (by norm_num) (by norm_num) (by norm_num) (by norm_num)⟩

/-- C8 counterexample: two distinct representations of the north pole are at
haversine distance zero, so zero distance does not imply point equality. -/
theorem C8_counterexample :
    haversine_distance { lat := 90, lng := 0 } { lat := 90, lng := 100 } = 0 ∧
      ({ lat := 90, lng := 0 } : GeoPoint) ≠ { lat := 90, lng := 100 } := by
  refine ⟨haversine_pole, fun h => ?_⟩
  have h1 := congrArg GeoPoint.lng h
  norm_num at h1

/-- C9: with an empty affected set, both rankers return the empty list
immediately; no scoring happens and no error is raised. -/
theorem C9_empty_affected_short_circuit (e : GeoPoint) (r : ℤ) (maxc : ℕ)
    (nodes : List Company) (conns : List Connection) (comps : List Company) :
    find_alternative_supplier_candidates [] e r maxc nodes = [] ∧
    find_alternative_route_candidates [] e r maxc conns comps = [] :=
  ⟨rfl, rfl⟩

/-- C3: no supplier candidate is closer to the epicenter than
radius/1000 + 50 km or has an id in the affected set, and no route candidate
has an id in the affected connection set or a minimum endpoint distance
below radius/1000 + 50 km. -/
theorem C3_safety_buffer_and_exclusion :
    (∀ (affected : List AffectedNodeEntry) (e : GeoPoint) (r : ℤ) (maxc : ℕ)
      (nodes : List Company) (c : SupplierCandidate),
      c ∈ find_alternative_supplier_candidates affected e r maxc nodes →
        c.id ∉ affected.map (fun n => n.id) ∧
        ¬ haversine_distance e c.location < (r : ℝ) / 1000 + 50) ∧
    (∀ (affected : List AffectedConnectionEntry) (e : GeoPoint) (r : ℤ) (maxc : ℕ)
      (conns : List Connection) (comps : List Company) (c : RouteCandidate),
      c ∈ find_alternative_route_candidates affected e r maxc conns comps →
        c.id ∉ affected.map (fun k => k.id) ∧
        ∃ fl tl, locationMapLookup comps c.from_node_id = some fl ∧
          locationMapLookup comps c.to_node_id = some tl ∧
          ¬ min (haversine_distance e fl) (haversine_distance e tl) <
            (r : ℝ) / 1000 + 50) := by
  constructor
  · intro affected e r maxc nodes c hc
    obtain ⟨node, _, loc, _, hid, hd, hc'⟩ := mem_supplier_candidates hc
    subst hc'
    exact ⟨hid, hd⟩
  · intro affected e r maxc conns comps c hc
    obtain ⟨conn, _, fl, tl, hf, ht, hid, hd, hc'⟩ := mem_route_candidates hc
    subst hc'
    exact ⟨hid, fl, tl, hf, ht, fun hmin => hd (min_lt_iff.mp hmin)⟩

/-- C3 witness: a far company qualifies as supplier candidate and a near
self-loop as route candidate; the theorem yields the exclusions for them. -/
theorem C3_witness :
    ((mkSupplierCandidate (affectedProductsOf [affO]) (affectedTypesOf [affO])
        geoO compQ geoQ).id ∉ [affO].map (fun n => n.id) ∧
      ¬ haversine_distance geoO (mkSupplierCandidate (affectedProductsOf [affO])
        (affectedTypesOf [affO]) geoO compQ geoQ).location < ((0 : ℤ) : ℝ) / 1000 + 50) ∧
    ((mkRouteCandidate (affectedMaterialsOf [affConn]) (affectedModesOf [affConn])
        geoO connN geoN geoN).id ∉ [affConn].map (fun k => k.id) ∧
      ∃ fl tl,
        locationMapLookup [compN] (mkRouteCandidate (affectedMaterialsOf [affConn])
          (affectedModesOf [affConn]) geoO connN geoN geoN).from_node_id = some fl ∧
        locationMapLookup [compN] (mkRouteCandidate (affectedMaterialsOf [affConn])
          (affectedModesOf [affConn]) geoO connN geoN geoN).to_node_id = some tl ∧
        ¬ min (haversine_distance geoO fl) (haversine_distance geoO tl) <
          ((0 : ℤ) : ℝ) / 1000 + 50) :=
  ⟨C3_safety_buffer_and_exclusion.1 [affO] geoO 0 10 [compQ] _
      (by rw [supplier_eval_far]; exact List.mem_cons_self _ _),
    C3_safety_buffer_and_exclusion.2 [affConn] geoO 0 10 [connN] [compN] _
      (by rw [route_eval_near]; exact List.mem_cons_self _ _)⟩

/-- Reference definition following the spec's words for the node similarity
score: 10 x product overlap + 5 x type match indicator + 0.1 x
max(0, 100 - distance_km). -/
noncomputable def supplier_score_spec (affected_products affected_types : Finset String)
    (node : Company) (distance_km : ℝ) : ℝ :=
  10 * ((affected_products ∩ node.products.toFinset).card : ℝ) +
    (if node.type ∈ affected_types then 5 else 0) + 0.1 * max 0 (100 - distance_km)

/-- The code's guarded overlap term agrees with the spec formula: when either
product set is empty the intersection is empty, so the guard changes nothing. -/
lemma supplierSimilarityScore_eq_spec (P T : Finset String) (node : Company) (d : ℝ) :
    supplierSimilarityScore P T node d = supplier_score_spec P T node d := by
  rw [supplierSimilarityScore, supplier_score_spec]
  by_cases h : P ≠ ∅ ∧ node.products.toFinset ≠ ∅
  · rw [if_pos h]
    ring
  · rw [if_neg h]
    rcases not_and_or.mp h with h1 | h1
    · rw [not_ne_iff.mp h1, Finset.empty_inter]
      simp [Finset.card_empty]
      ring
    · rw [not_ne_iff.mp h1, Finset.inter_empty]
      simp [Finset.card_empty]
      ring

/-- C5 (amended): every returned supplier candidate carries the spec scoring
formula rounded to 2 decimal places as similarity_score, and the
intersection of affected and candidate products as matching_products; the
result is sorted descending by that stored (rounded) score and truncated to
max_candidates. -/
theorem C5_supplier_scoring (affected : List AffectedNodeEntry) (e : GeoPoint) (r : ℤ)
    (maxc : ℕ) (nodes : List Company) :
    (∀ c ∈ find_alternative_supplier_candidates affected e r maxc nodes,
      ∃ node ∈ nodes, ∃ loc, resolveLocation node = some loc ∧
        c.similarity_score = round2 (supplier_score_spec (affectedProductsOf affected)
          (affectedTypesOf affected) node (haversine_distance e loc)) ∧
        c.matching_products = affectedProductsOf affected ∩ node.products.toFinset) ∧
    List.Sorted (fun a b => b.similarity_score ≤ a.similarity_score)
      (find_alternative_supplier_candidates affected e r maxc nodes) ∧
    (find_alternative_supplier_candidates affected e r maxc nodes).length ≤ maxc := by
  refine ⟨?_, sorted_supplier_candidates affected e r maxc nodes,
    length_supplier_candidates_le affected e r maxc nodes⟩
  intro c hc
  obtain ⟨node, hn, loc, hres, _, _, hc'⟩ := mem_supplier_candidates hc
  subst hc'
  exact ⟨node, hn, loc, hres, by rw [mkSupplierCandidate, supplierSimilarityScore_eq_spec],
    rfl⟩

/-- C5 witness: the near supplier is returned and the theorem yields its
score and matching-products characterization. -/
theorem C5_witness :
    ∃ node ∈ [compN], ∃ loc, resolveLocation node = some loc ∧
      (mkSupplierCandidate (affectedProductsOf [affO]) (affectedTypesOf [affO])
          geoO compN geoN).similarity_score =
        round2 (supplier_score_spec (affectedProductsOf [affO]) (affectedTypesOf [affO])
          node (haversine_distance geoO loc)) ∧
      (mkSupplierCandidate (affectedProductsOf [affO]) (affectedTypesOf [affO])
          geoO compN geoN).matching_products =
        affectedProductsOf [affO] ∩ node.products.toFinset :=
  (C5_supplier_scoring [affO] geoO 0 10 [compN]).1 _
    (by rw [supplier_eval_near]; exact List.mem_cons_self _ _)

/-- C5 counterexample: the claim says the carried score equals the scoring
formula, but the code stores the score rounded to 2 decimals; for the near
supplier the proximity term makes the true score irrational, so the rounded
value cannot equal it. -/
theorem C5_counterexample :
    (find_alternative_supplier_candidates [affO] geoO 0 10 [compN]).map
        (fun c => c.similarity_score) ≠
      [supplier_score_spec (affectedProductsOf [affO]) (affectedTypesOf [affO]) compN
        (haversine_distance geoO geoN)] := by
  have hsval : supplier_score_spec (affectedProductsOf [affO]) (affectedTypesOf [affO])
      compN (haversine_distance geoO geoN) =
        ((15 : ℚ) : ℝ) - ((6371 / 3600 : ℚ) : ℝ) * Real.pi := by
    rw [supplier_score_spec, hav_geoO_geoN]
    rw [show affectedProductsOf [affO] = ∅ from rfl, Finset.empty_inter]
    rw [if_pos (show compN.type ∈ affectedTypesOf [affO] by decide)]
    rw [max_eq_right (sub_nonneg.mpr geoN_dist_le_100)]
    simp only [Finset.card_empty, Nat.cast_zero]
    push_cast
    ring
  have hirr : Irrational (((15 : ℚ) : ℝ) - ((6371 / 3600 : ℚ) : ℝ) * Real.pi) :=
    (irrational_pi.rat_mul (by norm_num)).rat_sub 15
  rw [supplier_eval_near]
  simp only [List.map_cons, List.map_nil, mkSupplierCandidate]
  intro h
  have h1 : round2 (supplierSimilarityScore (affectedProductsOf [affO])
      (affectedTypesOf [affO]) compN (haversine_distance geoO geoN)) =
        supplier_score_spec (affectedProductsOf [affO]) (affectedTypesOf [affO]) compN
          (haversine_distance geoO geoN) := by
    simpa using h
  rw [supplierSimilarityScore_eq_spec, hsval] at h1
  exact round2_ne_of_irrational hirr h1

/-- C6 (amended): the affected-connections result preserves the snapshot
order of the connections table (it is the order-preserving filter of the
snapshot); it is not sorted by minimum endpoint distance, see the
counterexample. -/
theorem C6_connections_snapshot_order (ids : List String) (conns : List Connection) :
    (query_affected_connections ids conns).Sublist (conns.map projConnection) := by
  rw [query_affected_connections]
  split_ifs with hids
  · exact List.nil_sublist _
  · exact (List.filter_sublist _).map projConnection

/-- C6 counterexample: with the far and origin self-loop connections in
snapshot order far-first, both are affected for a large radius, and the
result keeps that order even though the far connection's minimum endpoint
distance exceeds the origin's, so the result is not sorted ascending by
minimum endpoint distance. -/
theorem C6_counterexample :
    ¬ List.Pairwise (fun a b => min_endpoint_distance geoO [compQ, compO] a ≤
        min_endpoint_distance geoO [compQ, compO] b)
      (query_affected_connections
        ((query_affected_nodes geoO 20000000 [compQ, compO]).map (fun c => c.id))
        [connQ, connO]) := by
  rw [qac_eval]
  intro h
  have h1 := (List.pairwise_cons.mp h).1 (projConnection connO) (by simp)
  rw [med_Q, med_O] at h1
  nlinarith [Real.pi_pos]

/-- C10 (amended): every returned route candidate comes from a snapshot
connection whose two endpoints both resolve through the location map and
both lie at least radius/1000 + 50 km from the epicenter (a connection with
any unresolvable endpoint is skipped, never an error), and it carries the
minimum of the two endpoint distances rounded to 2 decimal places as
min_distance_from_event_km. -/
theorem C10_route_candidates (affected : List AffectedConnectionEntry) (e : GeoPoint)
    (r : ℤ) (maxc : ℕ) (conns : List Connection) (comps : List Company) :
    ∀ c ∈ find_alternative_route_candidates affected e r maxc conns comps,
      ∃ conn ∈ conns, ∃ fl tl,
        locationMapLookup comps conn.from_node_id = some fl ∧
        locationMapLookup comps conn.to_node_id = some tl ∧
        ¬ haversine_distance e fl < (r : ℝ) / 1000 + 50 ∧
        ¬ haversine_distance e tl < (r : ℝ) / 1000 + 50 ∧
        c.id = conn.id ∧
        c.min_distance_from_event_km =
          round2 (min (haversine_distance e fl) (haversine_distance e tl)) := by
  intro c hc
  obtain ⟨conn, hmem, fl, tl, hf, ht, _, hd, hc'⟩ := mem_route_candidates hc
  obtain ⟨hd1, hd2⟩ := not_or.mp hd
  subst hc'
  exact ⟨conn, hmem, fl, tl, hf, ht, hd1, hd2, rfl, rfl⟩

/-- C10 witness: the near self-loop connection is returned and the theorem
yields its endpoint and rounded-minimum-distance characterization. -/
theorem C10_witness :
    ∃ conn ∈ [connN], ∃ fl tl,
      locationMapLookup [compN] conn.from_node_id = some fl ∧
      locationMapLookup [compN] conn.to_node_id = some tl ∧
      ¬ haversine_distance geoO fl < ((0 : ℤ) : ℝ) / 1000 + 50 ∧
      ¬ haversine_distance geoO tl < ((0 : ℤ) : ℝ) / 1000 + 50 ∧
      (mkRouteCandidate (affectedMaterialsOf [affConn]) (affectedModesOf [affConn])
        geoO connN geoN geoN).id = conn.id ∧
      (mkRouteCandidate (affectedMaterialsOf [affConn]) (affectedModesOf [affConn])
          geoO connN geoN geoN).min_distance_from_event_km =
        round2 (min (haversine_distance geoO fl) (haversine_distance geoO tl)) :=
  C10_route_candidates [affConn] geoO 0 10 [connN] [compN] _
    (by rw [route_eval_near]; exact List.mem_cons_self _ _)

/-- C10 counterexample: the claim says min_distance_from_event_km equals the
minimum of the two endpoint distances, but the code stores it rounded to 2
decimals; the near self-loop's endpoint distance is irrational, so the
rounded value cannot equal it. -/
theorem C10_counterexample :
    (find_alternative_route_candidates [affConn] geoO 0 10 [connN] [compN]).map
        (fun c => c.min_distance_from_event_km) ≠
      [min (haversine_distance geoO geoN) (haversine_distance geoO geoN)] := by
  rw [route_eval_near]
  simp only [List.map_cons, List.map_nil, mkRouteCandidate, min_self]
  intro h
  have h1 : round2 (haversine_distance geoO geoN) = haversine_distance geoO geoN := by
    simpa using h
  rw [hav_geoO_geoN] at h1
  exact round2_ne_of_irrational irrational_geoN_dist h1

end RiskAgent
